import Mathlib

/-!
Shallow embedding of the `job-search-automation` backend.

Source files embedded here:
* `src/backend/app/models/profile.py` — the Pydantic profile data model and
  its `sort_by_date` field validator;
* `src/backend/app/chains/cv_extraction.py` — the `CVExtractionChain` retry
  wrapper and the `_calculate_confidence` completeness scorer;
* `src/backend/app/models/job.py` and `src/backend/app/routers/jobs.py` —
  the job-matching request/response models and the `match_jobs` endpoint.

Python floats only ever hold small exact integer point totals and the literal
`87.5` in the embedded code, so numeric fields are modelled with `ℚ`.
-/

namespace JobSearch

/-! ### Enums (`app/models/profile.py`) -/

inductive DegreeType where
  | highSchool | associate | bachelor | master | doctorate
  | professional | certificate | bootcamp
  deriving DecidableEq, Repr

inductive SkillCategory where
  | language | framework | database | cloud | devops | tool | other
  deriving DecidableEq, Repr

inductive SkillProficiency where
  | beginner | intermediate | advanced | expert
  deriving DecidableEq, Repr

inductive EmploymentType where
  | fullTime | partTime | contract | freelance | internship
  deriving DecidableEq, Repr

inductive RemoteType where
  | remote | hybrid | onSite
  deriving DecidableEq, Repr

inductive CompanySize where
  | startup | small | medium | large | enterprise
  deriving DecidableEq, Repr

inductive LanguageProficiency where
  | elementary | limitedWorking | professionalWorking | fullProfessional | native
  deriving DecidableEq, Repr

/-! ### Profile data model (`app/models/profile.py`) -/

structure Location where
  city : Option String := none
  state : Option String := none
  country : String
  postal_code : Option String := none
  willing_to_relocate : Bool := false
  relocation_preferences : Option (List String) := none
  deriving DecidableEq, Repr

structure PersonalInfo where
  first_name : String
  last_name : String
  email : String
  phone : Option String := none
  location : Location
  linkedin : Option String := none
  github : Option String := none
  portfolio : Option String := none
  summary : Option String := none
  deriving DecidableEq, Repr

structure Achievement where
  description : String
  metric : Option String := none
  deriving DecidableEq, Repr

structure WorkExperience where
  id : String
  title : String
  company : String
  company_size : Option CompanySize := none
  industry : Option String := none
  location : Option String := none
  remote : Option RemoteType := none
  start_date : String
  end_date : Option String := none
  is_current : Bool := false
  responsibilities : List String := []
  achievements : List Achievement := []
  skills_used : List String := []
  employment_type : EmploymentType := .fullTime
  deriving DecidableEq, Repr

structure Education where
  id : String
  institution : String
  degree : DegreeType
  field : String
  start_date : Option String := none
  graduation_date : Option String := none
  gpa : Option ℚ := none
  honors : Option String := none
  relevant_coursework : Option (List String) := none
  activities : Option (List String) := none
  deriving DecidableEq, Repr

structure TechnicalSkill where
  name : String
  category : SkillCategory
  proficiency : SkillProficiency
  years_of_experience : Option ℚ := none
  last_used : Option String := none
  deriving DecidableEq, Repr

structure SoftSkill where
  name : String
  proficiency : Option SkillProficiency := none
  deriving DecidableEq, Repr

structure LanguageSkill where
  language : String
  proficiency : LanguageProficiency
  certifications : Option (List String) := none
  deriving DecidableEq, Repr

structure Skills where
  technical : List TechnicalSkill := []
  soft : List SoftSkill := []
  languages : List LanguageSkill := []
  deriving DecidableEq, Repr

structure Certification where
  id : String
  name : String
  issuer : String
  issue_date : String
  expiration_date : Option String := none
  credential_id : Option String := none
  credential_url : Option String := none
  deriving DecidableEq, Repr

structure Project where
  id : String
  name : String
  description : String
  url : Option String := none
  repo_url : Option String := none
  start_date : Option String := none
  end_date : Option String := none
  technologies : List String := []
  highlights : List String := []
  deriving DecidableEq, Repr

structure Profile where
  personal_info : PersonalInfo
  work_experience : List WorkExperience := []
  education : List Education := []
  skills : Skills := {}
  certifications : Option (List Certification) := none
  projects : Option (List Project) := none
  deriving DecidableEq, Repr

/-! ### Python truthiness helpers

`if x:` on a `str` is `x ≠ ""`; on an `Optional[str]` it is
`x is not None and x ≠ ""`; on an `Optional[float]` it is
`x is not None and x ≠ 0`; on a list it is non-emptiness. -/

def truthyStr (s : String) : Bool := s ≠ ""

/-- The whitespace characters removed by Python `str.strip()` (ASCII part:
space, tab, newline, carriage return, vertical tab, form feed). -/
def pyIsSpace (c : Char) : Bool :=
  c = ' ' || c = '\t' || c = '\n' || c = '\r' || c.toNat = 11 || c.toNat = 12

/-- Python `str.strip()`: removes leading and trailing whitespace. -/
def pyStrip (s : String) : String :=
  String.mk (((s.data.dropWhile pyIsSpace).reverse.dropWhile pyIsSpace).reverse)

def truthyOptStr : Option String → Bool
  | none => false
  | some s => s ≠ ""

def truthyOptRat : Option ℚ → Bool
  | none => false
  | some q => q ≠ 0

/-- Models `score += w` guarded by `if b:` in `_calculate_confidence`. -/
def pts (b : Bool) (w : ℕ) : ℕ := if b then w else 0

/-! ### The completeness scorer (`CVExtractionChain._calculate_confidence`)

The Python method accumulates `score` (an exact small-integer float) over
four comment-delimited blocks and accumulates `max_score` to `30+30+20+20 =
100`; we transcribe each block as one bucket function. -/

/-- The `# Personal info (30 points)` block. -/
def personalInfoPoints (pi : PersonalInfo) : ℕ :=
  pts (truthyStr pi.email) 10 +
  pts (truthyOptStr pi.phone) 5 +
  pts (truthyOptStr pi.location.city) 5 +
  pts (truthyOptStr pi.linkedin || truthyOptStr pi.github) 5 +
  pts (truthyOptStr pi.summary) 5

/-- The `# Work experience (30 points)` block. -/
def workExperiencePoints (wes : List WorkExperience) : ℕ :=
  if wes.isEmpty then 0 else
    15 + pts (decide (2 ≤ wes.length)) 5 +
    pts (wes.any fun e => decide (3 ≤ e.responsibilities.length)) 5 +
    pts (wes.any fun e => !e.achievements.isEmpty) 5

/-- The `# Education (20 points)` block. -/
def educationPoints (edus : List Education) : ℕ :=
  if edus.isEmpty then 0 else
    10 + pts (decide (1 ≤ edus.length)) 5 +
    pts (edus.any fun e => truthyOptRat e.gpa) 5

/-- The `# Skills (20 points)` block. -/
def skillsPoints (sk : Skills) : ℕ :=
  if sk.technical.isEmpty then 0 else
    10 + pts (decide (5 ≤ sk.technical.length)) 5 +
    pts (decide (10 ≤ sk.technical.length)) 5

/-- The final value of the Python local `score`. -/
def confidencePoints (p : Profile) : ℕ :=
  personalInfoPoints p.personal_info + workExperiencePoints p.work_experience +
  educationPoints p.education + skillsPoints p.skills

/-- Models `CVExtractionChain._calculate_confidence`: `max_score` is always
`100 > 0`, so the method returns `min(score / max_score, 1.0)`. -/
def calculate_confidence (p : Profile) : ℚ :=
  min ((confidencePoints p : ℚ) / 100) 1

/-! ### JSON values

A well-formed JSON value, the output of the model after the
`PydanticOutputParser` has decoded the raw text.  Numbers are exact
rationals. -/

inductive Json where
  | null
  | bool (b : Bool)
  | num (q : ℚ)
  | str (s : String)
  | arr (xs : List Json)
  | obj (fields : List (String × Json))

/-- First value bound to key `k` in a JSON object. -/
def lookupKey (o : List (String × Json)) (k : String) : Option Json :=
  match o.find? (fun kv => kv.1 == k) with
  | some kv => some kv.2
  | none => none

/-- Pydantic field lookup with `populate_by_name = True`: the alias is
accepted as well as the declared field name. -/
def getField (o : List (String × Json)) (aliasKey fieldName : String) : Option Json :=
  match lookupKey o aliasKey with
  | some j => some j
  | none => lookupKey o fieldName

/-! ### Pydantic-style field extractors

Each extractor mirrors how Pydantic v2 treats one field annotation.  Error
messages are simplified to a single first-failure string (Pydantic collects
all failures into one `ValidationError`; only the success/failure outcome is
load-bearing here). -/

/-- Required `str` field. -/
def reqStr (o : List (String × Json)) (aliasKey fieldName : String) : Except String String :=
  match getField o aliasKey fieldName with
  | none => .error (fieldName ++ ": field required")
  | some (.str s) => .ok s
  | some _ => .error (fieldName ++ ": expected string")

/-- Required `str` field with `min_length=1`. -/
def reqStrMin1 (o : List (String × Json)) (aliasKey fieldName : String) : Except String String :=
  match getField o aliasKey fieldName with
  | none => .error (fieldName ++ ": field required")
  | some (.str s) => if s = "" then .error (fieldName ++ ": too short") else .ok s
  | some _ => .error (fieldName ++ ": expected string")

/-- Shape accepted for `EmailStr` (stand-in for the `email-validator`
library: the value must be a string containing an at-sign; a missing field
or a non-string value fails exactly as in Pydantic). -/
def emailShapeOk (s : String) : Bool := s.data.contains '@'

/-- Required `EmailStr` field (`PersonalInfo.email` has no alias). -/
def reqEmail (o : List (String × Json)) : Except String String :=
  match getField o "email" "email" with
  | none => .error "email: field required"
  | some (.str s) => if emailShapeOk s then .ok s else .error "email: invalid email"
  | some _ => .error "email: expected string"

/-- Optional `str` field defaulting to `None`. -/
def optStr (o : List (String × Json)) (aliasKey fieldName : String) : Except String (Option String) :=
  match getField o aliasKey fieldName with
  | none => .ok none
  | some .null => .ok none
  | some (.str s) => .ok (some s)
  | some _ => .error (fieldName ++ ": expected string")

/-- A string element of a JSON array. -/
def asStr (fieldName : String) (j : Json) : Except String String :=
  match j with
  | .str s => .ok s
  | _ => .error (fieldName ++ ": expected string")

/-- Field of type `List[str]` with `default_factory=list`. -/
def strListDefault (o : List (String × Json)) (aliasKey fieldName : String) :
    Except String (List String) :=
  match getField o aliasKey fieldName with
  | none => .ok []
  | some (.arr xs) => xs.mapM (asStr fieldName)
  | some _ => .error (fieldName ++ ": expected array")

/-- Field of type `Optional[List[str]]` defaulting to `None`. -/
def optStrList (o : List (String × Json)) (aliasKey fieldName : String) :
    Except String (Option (List String)) :=
  match getField o aliasKey fieldName with
  | none => .ok none
  | some .null => .ok none
  | some (.arr xs) => do
      let l ← xs.mapM (asStr fieldName)
      pure (some l)
  | some _ => .error (fieldName ++ ": expected array")

/-- Field of type `bool` with a literal default. -/
def boolField (o : List (String × Json)) (aliasKey fieldName : String) (dflt : Bool) :
    Except String Bool :=
  match getField o aliasKey fieldName with
  | none => .ok dflt
  | some (.bool b) => .ok b
  | some _ => .error (fieldName ++ ": expected boolean")

/-- Field of type `Optional[float]` defaulting to `None`. -/
def optNum (o : List (String × Json)) (aliasKey fieldName : String) :
    Except String (Option ℚ) :=
  match getField o aliasKey fieldName with
  | none => .ok none
  | some .null => .ok none
  | some (.num q) => .ok (some q)
  | some _ => .error (fieldName ++ ": expected number")

/-- Field of type `Optional[float]` with `ge`/`le` bounds (`Education.gpa`). -/
def optNumRange (o : List (String × Json)) (aliasKey fieldName : String) (lo hi : ℚ) :
    Except String (Option ℚ) :=
  match getField o aliasKey fieldName with
  | none => .ok none
  | some .null => .ok none
  | some (.num q) =>
      if lo ≤ q ∧ q ≤ hi then .ok (some q) else .error (fieldName ++ ": out of range")
  | some _ => .error (fieldName ++ ": expected number")

/-- Required field whose annotation is a string-valued enum. -/
def reqEnum (toEnum : String → Option β) (o : List (String × Json))
    (aliasKey fieldName : String) : Except String β :=
  match getField o aliasKey fieldName with
  | none => .error (fieldName ++ ": field required")
  | some (.str s) =>
      match toEnum s with
      | some v => .ok v
      | none => .error (fieldName ++ ": invalid enum value")
  | some _ => .error (fieldName ++ ": expected string")

/-- Optional enum field defaulting to `None`. -/
def optEnum (toEnum : String → Option β) (o : List (String × Json))
    (aliasKey fieldName : String) : Except String (Option β) :=
  match getField o aliasKey fieldName with
  | none => .ok none
  | some .null => .ok none
  | some (.str s) =>
      match toEnum s with
      | some v => .ok (some v)
      | none => .error (fieldName ++ ": invalid enum value")
  | some _ => .error (fieldName ++ ": expected string")

/-- Enum field with a literal default (`WorkExperience.employment_type`). -/
def enumFieldDefault (toEnum : String → Option β) (o : List (String × Json))
    (aliasKey fieldName : String) (dflt : β) : Except String β :=
  match getField o aliasKey fieldName with
  | none => .ok dflt
  | some (.str s) =>
      match toEnum s with
      | some v => .ok v
      | none => .error (fieldName ++ ": invalid enum value")
  | some _ => .error (fieldName ++ ": expected string")

/-! ### Enum string values (the `str, Enum` value strings in `profile.py`) -/

def DegreeType.ofString? : String → Option DegreeType
  | "high-school" => some .highSchool
  | "associate" => some .associate
  | "bachelor" => some .bachelor
  | "master" => some .master
  | "doctorate" => some .doctorate
  | "professional" => some .professional
  | "certificate" => some .certificate
  | "bootcamp" => some .bootcamp
  | _ => none

def SkillCategory.ofString? : String → Option SkillCategory
  | "language" => some .language
  | "framework" => some .framework
  | "database" => some .database
  | "cloud" => some .cloud
  | "devops" => some .devops
  | "tool" => some .tool
  | "other" => some .other
  | _ => none

def SkillProficiency.ofString? : String → Option SkillProficiency
  | "beginner" => some .beginner
  | "intermediate" => some .intermediate
  | "advanced" => some .advanced
  | "expert" => some .expert
  | _ => none

def EmploymentType.ofString? : String → Option EmploymentType
  | "full-time" => some .fullTime
  | "part-time" => some .partTime
  | "contract" => some .contract
  | "freelance" => some .freelance
  | "internship" => some .internship
  | _ => none

def RemoteType.ofString? : String → Option RemoteType
  | "remote" => some .remote
  | "hybrid" => some .hybrid
  | "on-site" => some .onSite
  | _ => none

def CompanySize.ofString? : String → Option CompanySize
  | "startup" => some .startup
  | "small" => some .small
  | "medium" => some .medium
  | "large" => some .large
  | "enterprise" => some .enterprise
  | _ => none

def LanguageProficiency.ofString? : String → Option LanguageProficiency
  | "elementary" => some .elementary
  | "limited-working" => some .limitedWorking
  | "professional-working" => some .professionalWorking
  | "full-professional" => some .fullProfessional
  | "native" => some .native
  | _ => none

/-! ### Model validators (Pydantic `model_validate` for each class) -/

def validateLocation (j : Json) : Except String Location :=
  match j with
  | .obj o => do
      let city ← optStr o "city" "city"
      let state ← optStr o "state" "state"
      let country ← reqStr o "country" "country"
      let postal ← optStr o "postalCode" "postal_code"
      let willing ← boolField o "willingToRelocate" "willing_to_relocate" false
      let reloc ← optStrList o "relocationPreferences" "relocation_preferences"
      pure { city := city, state := state, country := country, postal_code := postal,
             willing_to_relocate := willing, relocation_preferences := reloc }
  | _ => .error "location: expected object"

def validatePersonalInfo (j : Json) : Except String PersonalInfo :=
  match j with
  | .obj o => do
      let firstName ← reqStrMin1 o "firstName" "first_name"
      let lastName ← reqStrMin1 o "lastName" "last_name"
      let email ← reqEmail o
      let phone ← optStr o "phone" "phone"
      let loc ←
        match getField o "location" "location" with
        | none => Except.error "location: field required"
        | some lj => validateLocation lj
      let linkedin ← optStr o "linkedIn" "linkedin"
      let github ← optStr o "github" "github"
      let portfolio ← optStr o "portfolio" "portfolio"
      let summary ← optStr o "summary" "summary"
      pure { first_name := firstName, last_name := lastName, email := email,
             phone := phone, location := loc, linkedin := linkedin, github := github,
             portfolio := portfolio, summary := summary }
  | _ => .error "personal_info: expected object"

def validateAchievement (j : Json) : Except String Achievement :=
  match j with
  | .obj o => do
      let description ← reqStr o "description" "description"
      let metric ← optStr o "metric" "metric"
      pure { description := description, metric := metric }
  | _ => .error "achievement: expected object"

def validateWorkExperience (j : Json) : Except String WorkExperience :=
  match j with
  | .obj o => do
      let id ← reqStr o "id" "id"
      let title ← reqStr o "title" "title"
      let company ← reqStr o "company" "company"
      let companySize ← optEnum CompanySize.ofString? o "companySize" "company_size"
      let industry ← optStr o "industry" "industry"
      let loc ← optStr o "location" "location"
      let remote ← optEnum RemoteType.ofString? o "remote" "remote"
      let startDate ← reqStr o "startDate" "start_date"
      let endDate ← optStr o "endDate" "end_date"
      let isCurrent ← boolField o "isCurrent" "is_current" false
      let resp ← strListDefault o "responsibilities" "responsibilities"
      let ach ←
        match getField o "achievements" "achievements" with
        | none => Except.ok []
        | some (.arr xs) => xs.mapM validateAchievement
        | some _ => Except.error "achievements: expected array"
      let skillsUsed ← strListDefault o "skillsUsed" "skills_used"
      let employmentType ←
        enumFieldDefault EmploymentType.ofString? o "employmentType" "employment_type" .fullTime
      pure { id := id, title := title, company := company, company_size := companySize,
             industry := industry, location := loc, remote := remote,
             start_date := startDate, end_date := endDate, is_current := isCurrent,
             responsibilities := resp, achievements := ach, skills_used := skillsUsed,
             employment_type := employmentType }
  | _ => .error "work_experience: expected object"

def validateEducation (j : Json) : Except String Education :=
  match j with
  | .obj o => do
      let id ← reqStr o "id" "id"
      let institution ← reqStr o "institution" "institution"
      let degree ← reqEnum DegreeType.ofString? o "degree" "degree"
      let fieldOfStudy ← reqStr o "field" "field"
      let startDate ← optStr o "startDate" "start_date"
      let graduationDate ← optStr o "graduationDate" "graduation_date"
      let gpa ← optNumRange o "gpa" "gpa" 0 10
      let honors ← optStr o "honors" "honors"
      let coursework ← optStrList o "relevantCoursework" "relevant_coursework"
      let activities ← optStrList o "activities" "activities"
      pure { id := id, institution := institution, degree := degree, field := fieldOfStudy,
             start_date := startDate, graduation_date := graduationDate, gpa := gpa,
             honors := honors, relevant_coursework := coursework, activities := activities }
  | _ => .error "education: expected object"

def validateTechnicalSkill (j : Json) : Except String TechnicalSkill :=
  match j with
  | .obj o => do
      let name ← reqStr o "name" "name"
      let category ← reqEnum SkillCategory.ofString? o "category" "category"
      let proficiency ← reqEnum SkillProficiency.ofString? o "proficiency" "proficiency"
      let yoe ← optNum o "yearsOfExperience" "years_of_experience"
      let lastUsed ← optStr o "lastUsed" "last_used"
      pure { name := name, category := category, proficiency := proficiency,
             years_of_experience := yoe, last_used := lastUsed }
  | _ => .error "technical_skill: expected object"

def validateSoftSkill (j : Json) : Except String SoftSkill :=
  match j with
  | .obj o => do
      let name ← reqStr o "name" "name"
      let proficiency ← optEnum SkillProficiency.ofString? o "proficiency" "proficiency"
      pure { name := name, proficiency := proficiency }
  | _ => .error "soft_skill: expected object"

def validateLanguageSkill (j : Json) : Except String LanguageSkill :=
  match j with
  | .obj o => do
      let language ← reqStr o "language" "language"
      let proficiency ←
        reqEnum LanguageProficiency.ofString? o "proficiency" "proficiency"
      let certifications ← optStrList o "certifications" "certifications"
      pure { language := language, proficiency := proficiency,
             certifications := certifications }
  | _ => .error "language_skill: expected object"

def validateSkills (j : Json) : Except String Skills :=
  match j with
  | .obj o => do
      let technical ←
        match getField o "technical" "technical" with
        | none => Except.ok []
        | some (.arr xs) => xs.mapM validateTechnicalSkill
        | some _ => Except.error "technical: expected array"
      let soft ←
        match getField o "soft" "soft" with
        | none => Except.ok []
        | some (.arr xs) => xs.mapM validateSoftSkill
        | some _ => Except.error "soft: expected array"
      let languages ←
        match getField o "languages" "languages" with
        | none => Except.ok []
        | some (.arr xs) => xs.mapM validateLanguageSkill
        | some _ => Except.error "languages: expected array"
      pure { technical := technical, soft := soft, languages := languages }
  | _ => .error "skills: expected object"

def validateCertification (j : Json) : Except String Certification :=
  match j with
  | .obj o => do
      let id ← reqStr o "id" "id"
      let name ← reqStr o "name" "name"
      let issuer ← reqStr o "issuer" "issuer"
      let issueDate ← reqStr o "issueDate" "issue_date"
      let expirationDate ← optStr o "expirationDate" "expiration_date"
      let credentialId ← optStr o "credentialId" "credential_id"
      let credentialUrl ← optStr o "credentialUrl" "credential_url"
      pure { id := id, name := name, issuer := issuer, issue_date := issueDate,
             expiration_date := expirationDate, credential_id := credentialId,
             credential_url := credentialUrl }
  | _ => .error "certification: expected object"

def validateProject (j : Json) : Except String Project :=
  match j with
  | .obj o => do
      let id ← reqStr o "id" "id"
      let name ← reqStr o "name" "name"
      let description ← reqStr o "description" "description"
      let url ← optStr o "url" "url"
      let repoUrl ← optStr o "repoUrl" "repo_url"
      let startDate ← optStr o "startDate" "start_date"
      let endDate ← optStr o "endDate" "end_date"
      let technologies ← strListDefault o "technologies" "technologies"
      let highlights ← strListDefault o "highlights" "highlights"
      pure { id := id, name := name, description := description, url := url,
             repo_url := repoUrl, start_date := startDate, end_date := endDate,
             technologies := technologies, highlights := highlights }
  | _ => .error "project: expected object"

/-! ### The `Profile.sort_by_date` field validator -/

instance (key : α → String) : DecidableRel (fun a b : α => key b ≤ key a) :=
  fun a b => inferInstanceAs (Decidable (key b ≤ key a))

/-- Models Python `sorted(v, key=..., reverse=True)`: a stable descending
sort by a string key. -/
def sortDescBy (key : α → String) (v : List α) : List α :=
  List.insertionSort (fun a b => key b ≤ key a) v

/-- Models `Profile.sort_by_date`.  The Python validator returns `v` for an
empty list, otherwise sorts by `start_date` when the entries have a
`start_date` attribute, otherwise by `graduation_date` when they have that
attribute; `has_start`/`has_grad` record the two `hasattr(v[0], ...)`
results, which depend only on the entry class. -/
def sort_by_date (has_start has_grad : Bool) (startKey gradKey : α → String)
    (v : List α) : List α :=
  if v.isEmpty then v
  else if has_start then sortDescBy startKey v
  else if has_grad then sortDescBy gradKey v
  else v

/-- Sort key for work experience: `x.start_date or ''`; `start_date` is a
required `str`, and `s or ''` is the identity on strings. -/
def weStartKey (e : WorkExperience) : String := e.start_date

/-- Sort key for education under the `start_date` branch: `x.start_date or ''`. -/
def eduStartKey (e : Education) : String := e.start_date.getD ""

/-- Sort key education would use under the `graduation_date` branch. -/
def eduGradKey (e : Education) : String := e.graduation_date.getD ""

/-- The required `personal_info` field of `Profile`. -/
def profilePersonalInfoStep (o : List (String × Json)) : Except String PersonalInfo :=
  match getField o "personalInfo" "personal_info" with
  | none => .error "personal_info: field required"
  | some pj => validatePersonalInfo pj

/-- A `List[Model]` field of `Profile` with `default_factory=list`. -/
def profileListStep (validate : Json → Except String β) (o : List (String × Json))
    (aliasKey fieldName : String) : Except String (List β) :=
  match getField o aliasKey fieldName with
  | none => .ok []
  | some (.arr xs) => xs.mapM validate
  | some _ => .error (fieldName ++ ": expected array")

/-- The `skills` field of `Profile` with `default_factory=Skills`. -/
def profileSkillsStep (o : List (String × Json)) : Except String Skills :=
  match getField o "skills" "skills" with
  | none => .ok {}
  | some sj => validateSkills sj

/-- An `Optional[List[Model]]` field of `Profile` defaulting to `None`. -/
def profileOptListStep (validate : Json → Except String β) (o : List (String × Json))
    (aliasKey fieldName : String) : Except String (Option (List β)) :=
  match getField o aliasKey fieldName with
  | none => .ok none
  | some .null => .ok none
  | some (.arr xs) =>
      match xs.mapM validate with
      | .ok l => .ok (some l)
      | .error e => .error e
  | some _ => .error (fieldName ++ ": expected array")

/-- Pydantic `model_validate` for `Profile`: field-by-field validation in
declaration order, then the `sort_by_date` field validator on
`work_experience` (which has a `start_date` attribute and no
`graduation_date` attribute) and on `education` (which has both). -/
def parseProfile (j : Json) : Except String Profile :=
  match j with
  | .obj o =>
      profilePersonalInfoStep o >>= fun pi =>
      profileListStep validateWorkExperience o "workExperience" "work_experience" >>= fun wes =>
      profileListStep validateEducation o "education" "education" >>= fun edus =>
      profileSkillsStep o >>= fun sk =>
      profileOptListStep validateCertification o "certifications" "certifications" >>= fun certs =>
      profileOptListStep validateProject o "projects" "projects" >>= fun projs =>
      .ok { personal_info := pi,
            work_experience := sort_by_date true false weStartKey (fun _ => "") wes,
            education := sort_by_date true true eduStartKey eduGradKey edus,
            skills := sk, certifications := certs, projects := projs }
  | _ => .error "profile: expected object"

/-! ### The extraction chain (`app/chains/cv_extraction.py`) -/

/-- Constructor arguments of `CVExtractionChain.__init__`, with their
defaults.  `max_retries` is a Python `int`, so it may be negative. -/
structure CVExtractionChain where
  model_name : String := "claude-3-5-haiku-20241022"
  temperature : ℚ := 0
  api_key : Option String := none
  max_retries : Int := 2
  deriving DecidableEq, Repr

/-- Outcome of one invocation of `self.chain` (`prompt | llm | parser`). -/
inductive ChainOutcome where
  | success (p : Profile)
  | parseFailure (msg : String)
  | transportFailure (msg : String)
  deriving DecidableEq

/-- One chain invocation: the LLM call either raises (any exception, caught
by `except Exception`) or returns decoded JSON, which the
`PydanticOutputParser` validates against `Profile`, raising
`OutputParserException` on failure.  The `isinstance(result, Profile)` check
inside the `try` block cannot fail in this typed embedding. -/
def runChain (modelOutput : Except String Json) : ChainOutcome :=
  match modelOutput with
  | .error e => .transportFailure e
  | .ok j =>
      match parseProfile j with
      | .ok p => .success p
      | .error e => .parseFailure e

/-- Result of `extract`/`extract_sync`: a returned `Profile`, a raised
`ValueError`, or the implicit `None` returned when the `for` loop body never
runs. -/
inductive ExtractResult where
  | ok (p : Profile)
  | error (msg : String)
  | noResult
  deriving DecidableEq

/-- Message of the `ValueError` raised in the `except OutputParserException`
arm of the last attempt. -/
def parseFailMessage (maxRetries : ℕ) (e : String) : String :=
  "Failed to parse CV after " ++ toString maxRetries ++ " attempts: " ++ e

/-- Message of the `ValueError` raised in the `except Exception` arm of the
last attempt. -/
def extractFailMessage (maxRetries : ℕ) (e : String) : String :=
  "CV extraction failed after " ++ toString maxRetries ++ " attempts: " ++ e

/-- The `for attempt in range(self.max_retries)` loop, run on the list of
outcomes of the successive chain invocations (one list entry per attempt, so
`rest = []` exactly when `attempt == self.max_retries - 1`).  Returns the
result together with the number of chain invocations performed. -/
def extractLoop (maxRetries : ℕ) : List ChainOutcome → ExtractResult × ℕ
  | [] => (.noResult, 0)
  | o :: rest =>
    match o with
    | .success p => (.ok p, 1)
    | .parseFailure e =>
        if rest.isEmpty then (.error (parseFailMessage maxRetries e), 1)
        else
          let r := extractLoop maxRetries rest
          (r.1, r.2 + 1)
    | .transportFailure e =>
        if rest.isEmpty then (.error (extractFailMessage maxRetries e), 1)
        else
          let r := extractLoop maxRetries rest
          (r.1, r.2 + 1)

/-- Body shared verbatim by `CVExtractionChain.extract` (async) and
`CVExtractionChain.extract_sync`: the empty-input guard
`if not cv_text or not cv_text.strip()` raises `ValueError` before any chain
invocation; otherwise the retry loop runs.  `modelOutputs i` is what the
model call of attempt `i` would produce; `Int.toNat` sends the non-positive
`max_retries` of an empty `range` to `0`. -/
def extractRun (c : CVExtractionChain) (cvText : String)
    (modelOutputs : ℕ → Except String Json) : ExtractResult × ℕ :=
  if cvText = "" ∨ pyStrip cvText = "" then (.error "CV text cannot be empty", 0)
  else
    extractLoop c.max_retries.toNat
      (((List.range c.max_retries.toNat).map modelOutputs).map runChain)

/-- `CVExtractionChain.extract` (async). -/
def extract (c : CVExtractionChain) (cvText : String)
    (modelOutputs : ℕ → Except String Json) : ExtractResult :=
  (extractRun c cvText modelOutputs).1

/-- `CVExtractionChain.extract_sync`; its body is a line-for-line copy of
`extract` with a synchronous `invoke`. -/
def extract_sync (c : CVExtractionChain) (cvText : String)
    (modelOutputs : ℕ → Except String Json) : ExtractResult :=
  (extractRun c cvText modelOutputs).1

/-- Number of chain invocations (model calls) a run performs. -/
def modelCalls (c : CVExtractionChain) (cvText : String)
    (modelOutputs : ℕ → Except String Json) : ℕ :=
  (extractRun c cvText modelOutputs).2

/-! ### Job matching (`app/models/job.py`, `app/routers/jobs.py`) -/

structure SkillMatch where
  skill : String
  matched : Bool
  proficiency_required : Option String := none
  user_proficiency : Option String := none
  gap : Option String := none
  deriving DecidableEq, Repr

structure MatchResult where
  job_id : String
  score : ℚ
  reasoning : String
  strengths : List String := []
  gaps : List String := []
  recommendation : String
  skill_matches : List SkillMatch := []
  education_match : Option String := none
  experience_match : Option String := none
  deriving DecidableEq, Repr

structure JobMatchRequest where
  profile_id : String
  job_ids : Option (List String) := none
  min_score : Option ℚ := some 0
  deriving DecidableEq, Repr

structure JobMatchResponse where
  «matches» : List MatchResult
  total_jobs : ℤ
  matched_jobs : ℤ
  deriving DecidableEq, Repr

/-- The `mock_match` literal built inside `match_jobs`. -/
def mockMatch : MatchResult :=
  { job_id := "job_mock_123"
    score := 87.5
    reasoning := "Strong match based on ML expertise and ETH education. PyTorch skills align perfectly with requirements."
    strengths := ["ETH Zurich MSc matches education requirements",
                  "Expert-level PyTorch experience",
                  "5+ years Python experience exceeds requirements"]
    gaps := ["No AWS deployment experience mentioned",
             "Preferred: 2+ years in production ML systems"]
    recommendation := "Highly Recommended"
    skill_matches := []
    education_match := some "Perfect match: ETH Zurich MSc in Computer Science"
    experience_match := some "Meets requirements: 5+ years of ML/AI experience" }

/-- The `POST /match` endpoint `match_jobs`: matching is unimplemented
(`TODO`), so every request gets the same mock response. -/
def match_jobs (_request : JobMatchRequest) : JobMatchResponse :=
  { «matches» := [mockMatch], total_jobs := 1, matched_jobs := 1 }

/-! ### Field-population order on profiles

The order relating two profiles `p ≤ q` when `q` populates a superset of the
optional fields and list entries populated in `p`, all shared fields equal
(the hypothesis of the spec's monotonicity property). -/

/-- An optional field of `q` populates at least what the same field of `p`
does: whenever `p` has a value, `q` has the same value. -/
def OptionLE (a b : Option α) : Prop := ∀ x, a = some x → b = some x

/-- Entry-wise order on lists: every entry of `l₁` appears in `l₂` (in
order), each related to its counterpart by `R`. -/
def SublistRel (R : α → α → Prop) (l₁ l₂ : List α) : Prop :=
  ∃ l, List.Forall₂ R l₁ l ∧ List.Sublist l l₂

structure LocationLE (p q : Location) : Prop where
  city : OptionLE p.city q.city
  state : OptionLE p.state q.state
  country : p.country = q.country
  postal_code : OptionLE p.postal_code q.postal_code
  willing_to_relocate : p.willing_to_relocate = q.willing_to_relocate
  relocation_preferences : OptionLE p.relocation_preferences q.relocation_preferences

structure PersonalInfoLE (p q : PersonalInfo) : Prop where
  first_name : p.first_name = q.first_name
  last_name : p.last_name = q.last_name
  email : p.email = q.email
  phone : OptionLE p.phone q.phone
  location : LocationLE p.location q.location
  linkedin : OptionLE p.linkedin q.linkedin
  github : OptionLE p.github q.github
  portfolio : OptionLE p.portfolio q.portfolio
  summary : OptionLE p.summary q.summary

structure AchievementLE (p q : Achievement) : Prop where
  description : p.description = q.description
  metric : OptionLE p.metric q.metric

structure WorkExperienceLE (p q : WorkExperience) : Prop where
  id : p.id = q.id
  title : p.title = q.title
  company : p.company = q.company
  company_size : OptionLE p.company_size q.company_size
  industry : OptionLE p.industry q.industry
  location : OptionLE p.location q.location
  remote : OptionLE p.remote q.remote
  start_date : p.start_date = q.start_date
  end_date : OptionLE p.end_date q.end_date
  is_current : p.is_current = q.is_current
  responsibilities : List.Sublist p.responsibilities q.responsibilities
  achievements : SublistRel AchievementLE p.achievements q.achievements
  skills_used : List.Sublist p.skills_used q.skills_used
  employment_type : p.employment_type = q.employment_type

structure EducationLE (p q : Education) : Prop where
  id : p.id = q.id
  institution : p.institution = q.institution
  degree : p.degree = q.degree
  field : p.field = q.field
  start_date : OptionLE p.start_date q.start_date
  graduation_date : OptionLE p.graduation_date q.graduation_date
  gpa : OptionLE p.gpa q.gpa
  honors : OptionLE p.honors q.honors
  relevant_coursework : OptionLE p.relevant_coursework q.relevant_coursework
  activities : OptionLE p.activities q.activities

structure TechnicalSkillLE (p q : TechnicalSkill) : Prop where
  name : p.name = q.name
  category : p.category = q.category
  proficiency : p.proficiency = q.proficiency
  years_of_experience : OptionLE p.years_of_experience q.years_of_experience
  last_used : OptionLE p.last_used q.last_used

structure SoftSkillLE (p q : SoftSkill) : Prop where
  name : p.name = q.name
  proficiency : OptionLE p.proficiency q.proficiency

structure LanguageSkillLE (p q : LanguageSkill) : Prop where
  language : p.language = q.language
  proficiency : p.proficiency = q.proficiency
  certifications : OptionLE p.certifications q.certifications

structure SkillsLE (p q : Skills) : Prop where
  technical : SublistRel TechnicalSkillLE p.technical q.technical
  soft : SublistRel SoftSkillLE p.soft q.soft
  languages : SublistRel LanguageSkillLE p.languages q.languages

structure ProfileLE (p q : Profile) : Prop where
  personal_info : PersonalInfoLE p.personal_info q.personal_info
  work_experience : SublistRel WorkExperienceLE p.work_experience q.work_experience
  education : SublistRel EducationLE p.education q.education
  skills : SkillsLE p.skills q.skills
  certifications : OptionLE p.certifications q.certifications
  projects : OptionLE p.projects q.projects

/-! ### Concrete values used by the witnesses -/

/-- A minimal valid personal-info record. -/
def basicPI : PersonalInfo :=
  { first_name := "Maxim", last_name := "Gusev", email := "mg@example.com",
    location := { country := "Switzerland" } }

/-- A minimal profile: only the required fields populated. -/
def trivialProfile : Profile := { personal_info := basicPI }

/-- The trivial profile with one more optional field (`phone`) populated. -/
def trivialProfilePhone : Profile :=
  { personal_info := { basicPI with phone := some "+41 79 123 4567" } }

/-- A profile matching the spec's worked example: email, phone and
`location.city` populated, no links, no summary, everything else empty. -/
def workedExampleProfile : Profile :=
  { personal_info :=
      { first_name := "Maxim", last_name := "Gusev", email := "mg@example.com",
        phone := some "+41 79 123 4567",
        location := { city := some "Zurich", country := "Switzerland" } } }

/-- A personal-info JSON object with the required `email` field omitted. -/
def noEmailPIFields : List (String × Json) :=
  [("firstName", .str "Maxim"), ("lastName", .str "Gusev"),
   ("location", .obj [("country", .str "Switzerland")])]

/-- A model response whose `personal_info` omits `email`. -/
def noEmailTopFields : List (String × Json) :=
  [("personal_info", .obj noEmailPIFields)]

/-- A minimal valid model response. -/
def minimalProfileJson : Json :=
  .obj [("personal_info", .obj
    [("firstName", .str "Maxim"), ("lastName", .str "Gusev"),
     ("email", .str "mg@example.com"),
     ("location", .obj [("country", .str "Switzerland")])])]

/-! ## Shared lemmas -/

theorem pts_le (b : Bool) (w : ℕ) : pts b w ≤ w := by
  unfold pts; split <;> simp

theorem pts_mono {a b : Bool} (h : a = true → b = true) (w : ℕ) :
    pts a w ≤ pts b w := by
  cases a with
  | false => exact Nat.zero_le _
  | true => rw [h rfl]

theorem personalInfoPoints_le (pi : PersonalInfo) : personalInfoPoints pi ≤ 30 := by
  unfold personalInfoPoints pts
  split_ifs <;> omega

theorem workExperiencePoints_le (wes : List WorkExperience) :
    workExperiencePoints wes ≤ 30 := by
  unfold workExperiencePoints pts
  split_ifs <;> omega

theorem educationPoints_le (edus : List Education) : educationPoints edus ≤ 20 := by
  unfold educationPoints pts
  split_ifs <;> omega

theorem skillsPoints_le (sk : Skills) : skillsPoints sk ≤ 20 := by
  unfold skillsPoints pts
  split_ifs <;> omega

theorem confidencePoints_le (p : Profile) : confidencePoints p ≤ 100 := by
  have h1 := personalInfoPoints_le p.personal_info
  have h2 := workExperiencePoints_le p.work_experience
  have h3 := educationPoints_le p.education
  have h4 := skillsPoints_le p.skills
  unfold confidencePoints
  omega

theorem calculate_confidence_eq_div (p : Profile) :
    calculate_confidence p = (confidencePoints p : ℚ) / 100 := by
  unfold calculate_confidence
  refine min_eq_left ?_
  rw [div_le_one (by norm_num)]
  exact_mod_cast confidencePoints_le p

/-! ## Claims -/

/-- C8: `match_jobs` ignores its request and always returns the single
hardcoded `MatchResult` with `job_id = "job_mock_123"` and score `87.5`,
with `total_jobs = 1` and `matched_jobs = 1`. -/
theorem match_jobs_hardcoded (req : JobMatchRequest) :
    match_jobs req =
      { «matches» := [mockMatch], total_jobs := 1, matched_jobs := 1 } ∧
    mockMatch.job_id = "job_mock_123" ∧
    mockMatch.score = 87.5 ∧
    (match_jobs req).«matches» = [mockMatch] ∧
    (match_jobs req).total_jobs = 1 ∧
    (match_jobs req).matched_jobs = 1 :=
  ⟨rfl, rfl, rfl, rfl, rfl, rfl⟩

/-- C2: on empty or whitespace-only input, both `extract` and `extract_sync`
raise `ValueError("CV text cannot be empty")` without a single chain
invocation. -/
theorem empty_input_fails_fast (c : CVExtractionChain) (cvText : String)
    (m : ℕ → Except String Json) (h : pyStrip cvText = "") :
    extract c cvText m = .error "CV text cannot be empty" ∧
    extract_sync c cvText m = .error "CV text cannot be empty" ∧
    modelCalls c cvText m = 0 := by
  have hcond : cvText = "" ∨ pyStrip cvText = "" := Or.inr h
  unfold extract extract_sync modelCalls extractRun
  rw [if_pos hcond]
  exact ⟨rfl, rfl, rfl⟩

theorem empty_input_fails_fast_witness :
    (pyStrip "  \t " = "") ∧
    (extract {} "  \t " (fun _ => .error "unused") =
        .error "CV text cannot be empty" ∧
     extract_sync {} "  \t " (fun _ => .error "unused") =
        .error "CV text cannot be empty" ∧
     modelCalls {} "  \t " (fun _ => .error "unused") = 0) :=
  ⟨by decide, empty_input_fails_fast {} "  \t " (fun _ => .error "unused") (by decide)⟩

/-- C10: with `max_retries ≤ 0` the `for` loop body never runs, so for
non-empty input both methods return Python `None`: no model call, no
`Profile`, no raised error. -/
theorem nonpositive_retries_returns_none (c : CVExtractionChain) (cvText : String)
    (m : ℕ → Except String Json) (hr : c.max_retries ≤ 0)
    (h1 : cvText ≠ "") (h2 : pyStrip cvText ≠ "") :
    extract c cvText m = .noResult ∧
    extract_sync c cvText m = .noResult ∧
    modelCalls c cvText m = 0 ∧
    (∀ p, extract c cvText m ≠ .ok p) ∧
    (∀ e, extract c cvText m ≠ .error e) := by
  have hcond : ¬(cvText = "" ∨ pyStrip cvText = "") := by
    rintro (h | h)
    · exact h1 h
    · exact h2 h
  have htn : c.max_retries.toNat = 0 := Int.toNat_eq_zero.mpr hr
  unfold extract extract_sync modelCalls extractRun
  rw [if_neg hcond, htn]
  refine ⟨rfl, rfl, rfl, fun p hp => ?_, fun e he => ?_⟩
  · exact ExtractResult.noConfusion hp
  · exact ExtractResult.noConfusion he

theorem nonpositive_retries_returns_none_witness :
    (({ max_retries := 0 } : CVExtractionChain).max_retries ≤ 0) ∧ ("cv" ≠ "") ∧
    (pyStrip "cv" ≠ "") ∧
    (extract { max_retries := 0 } "cv" (fun _ => .error "unused") = .noResult ∧
     extract_sync { max_retries := 0 } "cv" (fun _ => .error "unused") = .noResult ∧
     modelCalls { max_retries := 0 } "cv" (fun _ => .error "unused") = 0 ∧
     (∀ p, extract { max_retries := 0 } "cv" (fun _ => .error "unused") ≠ .ok p) ∧
     (∀ e, extract { max_retries := 0 } "cv" (fun _ => .error "unused") ≠ .error e)) :=
  ⟨by decide, by decide, by decide,
   nonpositive_retries_returns_none { max_retries := 0 } "cv" (fun _ => .error "unused")
     (by decide) (by decide) (by decide)⟩

/-- C7: the extraction pipeline is deterministic apart from the model call:
the result is a function of the model outputs consulted (attempts
`0 ≤ i < max_retries`), and the async and sync variants agree, so two runs
against the same temperature-zero stub yield the identical parsed record. -/
theorem extraction_deterministic (c : CVExtractionChain) (t : String)
    (m₁ m₂ : ℕ → Except String Json)
    (hag : ∀ i < c.max_retries.toNat, m₁ i = m₂ i) :
    extract c t m₁ = extract c t m₂ ∧
    extract_sync c t m₁ = extract_sync c t m₂ ∧
    extract c t m₁ = extract_sync c t m₁ := by
  have hmap : (List.range c.max_retries.toNat).map m₁ =
      (List.range c.max_retries.toNat).map m₂ := by
    apply List.map_congr_left
    intro i hi
    exact hag i (List.mem_range.mp hi)
  unfold extract extract_sync extractRun
  rw [hmap]
  exact ⟨rfl, rfl, rfl⟩

theorem extraction_deterministic_witness :
    (∀ i < ({} : CVExtractionChain).max_retries.toNat,
      (fun _ : ℕ => (Except.ok minimalProfileJson : Except String Json)) i =
      (fun _ : ℕ => (Except.ok minimalProfileJson : Except String Json)) i) ∧
    (extract {} "cv" (fun _ => .ok minimalProfileJson) =
        extract {} "cv" (fun _ => .ok minimalProfileJson) ∧
     extract_sync {} "cv" (fun _ => .ok minimalProfileJson) =
        extract_sync {} "cv" (fun _ => .ok minimalProfileJson) ∧
     extract {} "cv" (fun _ => .ok minimalProfileJson) =
        extract_sync {} "cv" (fun _ => .ok minimalProfileJson)) :=
  ⟨fun _ _ => rfl,
   extraction_deterministic {} "cv" (fun _ => .ok minimalProfileJson)
     (fun _ => .ok minimalProfileJson) (fun _ _ => rfl)⟩

/-- C4: `_calculate_confidence` is a function of the profile allocating
points over exactly four capped buckets (identity 30, work experience 30,
education 20, skills 20); the score is the bucket sum divided by 100 and
lies in `[0, 1]`. -/
theorem confidence_four_buckets_capped_and_bounded (p : Profile) :
    personalInfoPoints p.personal_info ≤ 30 ∧
    workExperiencePoints p.work_experience ≤ 30 ∧
    educationPoints p.education ≤ 20 ∧
    skillsPoints p.skills ≤ 20 ∧
    confidencePoints p = personalInfoPoints p.personal_info +
      workExperiencePoints p.work_experience + educationPoints p.education +
      skillsPoints p.skills ∧
    calculate_confidence p = (confidencePoints p : ℚ) / 100 ∧
    0 ≤ calculate_confidence p ∧ calculate_confidence p ≤ 1 := by
  refine ⟨personalInfoPoints_le _, workExperiencePoints_le _, educationPoints_le _,
    skillsPoints_le _, rfl, calculate_confidence_eq_div p, ?_, ?_⟩
  · rw [calculate_confidence_eq_div]
    positivity
  · unfold calculate_confidence
    exact min_le_right _ _

/-- C5: with email, phone and city populated but no links and no summary,
the identity bucket contributes exactly `10 + 5 + 5 = 20` of its 30 points,
and the score is the manual sum of the per-bucket weights divided by 100. -/
theorem identity_bucket_worked_example (p : Profile)
    (he : truthyStr p.personal_info.email = true)
    (hp : truthyOptStr p.personal_info.phone = true)
    (hc : truthyOptStr p.personal_info.location.city = true)
    (hl : truthyOptStr p.personal_info.linkedin = false)
    (hg : truthyOptStr p.personal_info.github = false)
    (hs : truthyOptStr p.personal_info.summary = false) :
    personalInfoPoints p.personal_info = 20 ∧
    calculate_confidence p =
      ((personalInfoPoints p.personal_info + workExperiencePoints p.work_experience +
        educationPoints p.education + skillsPoints p.skills : ℕ) : ℚ) / 100 := by
  constructor
  · unfold personalInfoPoints
    rw [he, hp, hc, hl, hg, hs]
    rfl
  · exact calculate_confidence_eq_div p

theorem identity_bucket_worked_example_witness :
    (truthyStr workedExampleProfile.personal_info.email = true ∧
     truthyOptStr workedExampleProfile.personal_info.phone = true ∧
     truthyOptStr workedExampleProfile.personal_info.location.city = true ∧
     truthyOptStr workedExampleProfile.personal_info.linkedin = false ∧
     truthyOptStr workedExampleProfile.personal_info.github = false ∧
     truthyOptStr workedExampleProfile.personal_info.summary = false) ∧
    (personalInfoPoints workedExampleProfile.personal_info = 20 ∧
     calculate_confidence workedExampleProfile =
       ((personalInfoPoints workedExampleProfile.personal_info +
         workExperiencePoints workedExampleProfile.work_experience +
         educationPoints workedExampleProfile.education +
         skillsPoints workedExampleProfile.skills : ℕ) : ℚ) / 100) :=
  ⟨⟨by decide, by decide, by decide, by decide, by decide, by decide⟩,
   identity_bucket_worked_example workedExampleProfile
     (by decide) (by decide) (by decide) (by decide) (by decide) (by decide)⟩

/-! ## The retry loop -/

theorem extractLoop_all_fail (maxR : ℕ) :
    ∀ l : List ChainOutcome, l ≠ [] →
    (∀ o ∈ l, ∀ p, o ≠ .success p) →
    (extractLoop maxR l).2 = l.length ∧
    (∀ p, (extractLoop maxR l).1 ≠ .ok p) ∧
    (∀ e, l.getLast? = some (.parseFailure e) →
      (extractLoop maxR l).1 = .error (parseFailMessage maxR e)) ∧
    (∀ e, l.getLast? = some (.transportFailure e) →
      (extractLoop maxR l).1 = .error (extractFailMessage maxR e)) := by
  intro l
  induction l with
  | nil => intro h; exact absurd rfl h
  | cons o rest ih =>
    intro _ hfail
    have hofail : ∀ p, o ≠ ChainOutcome.success p :=
      hfail o (List.mem_cons_self o rest)
    match rest with
    | [] =>
      cases o with
      | success p => exact absurd rfl (hofail p)
      | parseFailure e =>
        refine ⟨rfl, ?_, ?_, ?_⟩
        · intro p hp
          exact ExtractResult.noConfusion (show ExtractResult.error _ = _ from hp)
        · intro f hf
          simp only [List.getLast?_singleton, Option.some.injEq] at hf
          cases hf
          rfl
        · intro f hf
          simp only [List.getLast?_singleton, Option.some.injEq] at hf
          cases hf
      | transportFailure e =>
        refine ⟨rfl, ?_, ?_, ?_⟩
        · intro p hp
          exact ExtractResult.noConfusion (show ExtractResult.error _ = _ from hp)
        · intro f hf
          simp only [List.getLast?_singleton, Option.some.injEq] at hf
          cases hf
        · intro f hf
          simp only [List.getLast?_singleton, Option.some.injEq] at hf
          cases hf
          rfl
    | o₂ :: rest₂ =>
      have hrestfail : ∀ x ∈ o₂ :: rest₂, ∀ p, x ≠ ChainOutcome.success p :=
        fun x hx => hfail x (List.mem_cons_of_mem o hx)
      obtain ⟨ih1, ih2, ih3, ih4⟩ := ih (List.cons_ne_nil o₂ rest₂) hrestfail
      have hlast : (o :: o₂ :: rest₂).getLast? = (o₂ :: rest₂).getLast? := by
        simp [List.getLast?_cons_cons]
      cases o with
      | success p => exact absurd rfl (hofail p)
      | parseFailure e =>
        have hloop : extractLoop maxR (ChainOutcome.parseFailure e :: o₂ :: rest₂) =
            ((extractLoop maxR (o₂ :: rest₂)).1,
             (extractLoop maxR (o₂ :: rest₂)).2 + 1) := by
          simp [extractLoop]
        rw [hloop]
        refine ⟨by simp [ih1], ih2, ?_, ?_⟩
        · intro f hf
          exact ih3 f (hlast ▸ hf)
        · intro f hf
          exact ih4 f (hlast ▸ hf)
      | transportFailure e =>
        have hloop : extractLoop maxR (ChainOutcome.transportFailure e :: o₂ :: rest₂) =
            ((extractLoop maxR (o₂ :: rest₂)).1,
             (extractLoop maxR (o₂ :: rest₂)).2 + 1) := by
          simp [extractLoop]
        rw [hloop]
        refine ⟨by simp [ih1], ih2, ?_, ?_⟩
        · intro f hf
          exact ih3 f (hlast ▸ hf)
        · intro f hf
          exact ih4 f (hlast ▸ hf)

theorem getLast?_map_range {α : Type} (g : ℕ → α) (n : ℕ) (hn : 1 ≤ n) :
    ((List.range n).map g).getLast? = some (g (n - 1)) := by
  obtain ⟨k, rfl⟩ : ∃ k, n = k + 1 := ⟨n - 1, by omega⟩
  rw [List.range_succ, List.map_append]
  simp

/-- C1: for non-empty input, when every chain invocation fails (schema or
transport), the request is re-issued exactly `max_retries` times (default
`2`), and the run ends in a `ValueError` whose message is built from the
last failure cause; no `Profile` is ever returned.  Both `extract` and
`extract_sync` behave identically. -/
theorem retry_exhaustion_terminal_error (c : CVExtractionChain) (t : String)
    (m : ℕ → Except String Json) (ht : pyStrip t ≠ "")
    (hn : 1 ≤ c.max_retries)
    (hfail : ∀ i < c.max_retries.toNat, ∀ p, runChain (m i) ≠ .success p) :
    modelCalls c t m = c.max_retries.toNat ∧
    (∀ p, extract c t m ≠ .ok p) ∧
    (∀ p, extract_sync c t m ≠ .ok p) ∧
    (∀ e, runChain (m (c.max_retries.toNat - 1)) = .parseFailure e →
      extract c t m = .error (parseFailMessage c.max_retries.toNat e) ∧
      extract_sync c t m = .error (parseFailMessage c.max_retries.toNat e)) ∧
    (∀ e, runChain (m (c.max_retries.toNat - 1)) = .transportFailure e →
      extract c t m = .error (extractFailMessage c.max_retries.toNat e) ∧
      extract_sync c t m = .error (extractFailMessage c.max_retries.toNat e)) := by
  have ht0 : t ≠ "" := by
    intro h
    rw [h] at ht
    exact ht rfl
  have hcond : ¬(t = "" ∨ pyStrip t = "") := by
    rintro (h | h)
    · exact ht0 h
    · exact ht h
  have hn1 : 1 ≤ c.max_retries.toNat := by omega
  set n := c.max_retries.toNat with hndef
  set l : List ChainOutcome := ((List.range n).map m).map runChain with hl
  have hl2 : l = (List.range n).map (fun i => runChain (m i)) := by
    rw [hl, List.map_map]
    rfl
  have hlen : l.length = n := by rw [hl2, List.length_map, List.length_range]
  have hlne : l ≠ [] := by
    intro h
    rw [h] at hlen
    simp at hlen
    omega
  have hlfail : ∀ o ∈ l, ∀ p, o ≠ ChainOutcome.success p := by
    intro o ho p
    rw [hl2] at ho
    obtain ⟨i, hi, rfl⟩ := List.mem_map.mp ho
    exact hfail i (List.mem_range.mp hi) p
  have hlast : l.getLast? = some (runChain (m (n - 1))) := by
    rw [hl2]
    exact getLast?_map_range _ n hn1
  obtain ⟨hL1, hL2, hL3, hL4⟩ := extractLoop_all_fail n l hlne hlfail
  have hrun : extractRun c t m = extractLoop n l := by
    unfold extractRun
    rw [if_neg hcond]
  refine ⟨?_, ?_, ?_, ?_, ?_⟩
  · unfold modelCalls
    rw [hrun, hL1, hlen]
  · intro p
    unfold extract
    rw [hrun]
    exact hL2 p
  · intro p
    unfold extract_sync
    rw [hrun]
    exact hL2 p
  · intro e he
    have := hL3 e (by rw [hlast, he])
    constructor
    · unfold extract
      rw [hrun]
      exact this
    · unfold extract_sync
      rw [hrun]
      exact this
  · intro e he
    have := hL4 e (by rw [hlast, he])
    constructor
    · unfold extract
      rw [hrun]
      exact this
    · unfold extract_sync
      rw [hrun]
      exact this

theorem retry_exhaustion_terminal_error_witness :
    (pyStrip "my cv" ≠ "") ∧ (1 ≤ ({} : CVExtractionChain).max_retries) ∧
    (∀ i < ({} : CVExtractionChain).max_retries.toNat, ∀ p,
      runChain ((fun _ => .error "connection reset") i) ≠ .success p) ∧
    (modelCalls {} "my cv" (fun _ => .error "connection reset") =
      ({} : CVExtractionChain).max_retries.toNat ∧
    (∀ p, extract {} "my cv" (fun _ => .error "connection reset") ≠ .ok p) ∧
    (∀ p, extract_sync {} "my cv" (fun _ => .error "connection reset") ≠ .ok p) ∧
    (∀ e, runChain ((fun _ => .error "connection reset")
        (({} : CVExtractionChain).max_retries.toNat - 1)) = .parseFailure e →
      extract {} "my cv" (fun _ => .error "connection reset") =
        .error (parseFailMessage ({} : CVExtractionChain).max_retries.toNat e) ∧
      extract_sync {} "my cv" (fun _ => .error "connection reset") =
        .error (parseFailMessage ({} : CVExtractionChain).max_retries.toNat e)) ∧
    (∀ e, runChain ((fun _ => .error "connection reset")
        (({} : CVExtractionChain).max_retries.toNat - 1)) = .transportFailure e →
      extract {} "my cv" (fun _ => .error "connection reset") =
        .error (extractFailMessage ({} : CVExtractionChain).max_retries.toNat e) ∧
      extract_sync {} "my cv" (fun _ => .error "connection reset") =
        .error (extractFailMessage ({} : CVExtractionChain).max_retries.toNat e))) :=
  ⟨by decide, by decide,
   fun i _ p h => ChainOutcome.noConfusion (show ChainOutcome.transportFailure _ = _ from h),
   retry_exhaustion_terminal_error {} "my cv" (fun _ => .error "connection reset")
     (by decide) (by decide)
     (fun i _ p h =>
       ChainOutcome.noConfusion (show ChainOutcome.transportFailure _ = _ from h))⟩

/-! ## Schema validation -/

theorem bind_ok {α β : Type} {x : Except String α} {f : α → Except String β} {b : β}
    (h : x >>= f = .ok b) : ∃ a, x = .ok a ∧ f a = .ok b := by
  cases x with
  | error e =>
    exact absurd h (by simp [Bind.bind, Except.bind])
  | ok a =>
    refine ⟨a, rfl, ?_⟩
    simpa [Bind.bind, Except.bind] using h

/-- If the `email` key (which has no alias) is absent or bound to a
non-string value, `PersonalInfo` validation cannot succeed. -/
theorem validatePersonalInfo_not_ok_of_bad_email (piFields : List (String × Json))
    (hemail : ∀ s, getField piFields "email" "email" ≠ some (.str s)) :
    ∀ pi, validatePersonalInfo (.obj piFields) ≠ .ok pi := by
  intro pi hok
  unfold validatePersonalInfo at hok
  obtain ⟨fn, hfn, hok⟩ := bind_ok hok
  obtain ⟨ln, hln, hok⟩ := bind_ok hok
  obtain ⟨em, hem, hok⟩ := bind_ok hok
  unfold reqEmail at hem
  cases hget : getField piFields "email" "email" with
  | none =>
    rw [hget] at hem
    exact Except.noConfusion hem
  | some j =>
    cases j with
    | str s => exact hemail s hget
    | null => rw [hget] at hem; exact Except.noConfusion hem
    | bool b => rw [hget] at hem; exact Except.noConfusion hem
    | num q => rw [hget] at hem; exact Except.noConfusion hem
    | arr xs => rw [hget] at hem; exact Except.noConfusion hem
    | obj o => rw [hget] at hem; exact Except.noConfusion hem

/-- A model response whose `personal_info` lacks a string `email` is
rejected by `Profile` validation. -/
theorem parseProfile_rejects_bad_email (topFields piFields : List (String × Json))
    (hpi : getField topFields "personalInfo" "personal_info" = some (.obj piFields))
    (hemail : ∀ s, getField piFields "email" "email" ≠ some (.str s)) :
    (∀ p, parseProfile (.obj topFields) ≠ .ok p) ∧
    ∃ e, parseProfile (.obj topFields) = .error e := by
  have hnotok : ∀ p, parseProfile (.obj topFields) ≠ .ok p := by
    intro p hok
    simp only [parseProfile] at hok
    obtain ⟨pi, hpiok, hok⟩ := bind_ok hok
    unfold profilePersonalInfoStep at hpiok
    rw [hpi] at hpiok
    exact validatePersonalInfo_not_ok_of_bad_email piFields hemail pi hpiok
  refine ⟨hnotok, ?_⟩
  cases hpp : parseProfile (.obj topFields) with
  | ok p => exact absurd hpp (hnotok p)
  | error e => exact ⟨e, rfl⟩

/-- C3: a model response that omits the required `personal_info.email` field
(or binds it to a non-string value) is rejected: the chain invocation is
classified as a schema-validation failure (`OutputParserException`), which
is a different constructor from a transport failure, is never accepted as a
`Profile`, and — when further attempts remain — consumes exactly one retry
attempt before the loop moves on. -/
theorem missing_required_field_is_schema_failure (topFields piFields : List (String × Json))
    (hpi : getField topFields "personalInfo" "personal_info" = some (.obj piFields))
    (hemail : ∀ s, getField piFields "email" "email" ≠ some (.str s)) :
    (∀ p, runChain (.ok (.obj topFields)) ≠ .success p) ∧
    (∃ e, runChain (.ok (.obj topFields)) = .parseFailure e) ∧
    (∀ e eT, (ChainOutcome.parseFailure e ≠ ChainOutcome.transportFailure eT)) ∧
    (∀ maxR (rest : List ChainOutcome), rest ≠ [] →
      extractLoop maxR (runChain (.ok (.obj topFields)) :: rest) =
        ((extractLoop maxR rest).1, (extractLoop maxR rest).2 + 1)) := by
  obtain ⟨hnotok, e, herr⟩ := parseProfile_rejects_bad_email topFields piFields hpi hemail
  have hrc : runChain (.ok (.obj topFields)) = .parseFailure e := by
    simp only [runChain, herr]
  refine ⟨?_, ⟨e, hrc⟩, ?_, ?_⟩
  · intro p hp
    rw [hrc] at hp
    exact ChainOutcome.noConfusion hp
  · intro f fT h
    exact ChainOutcome.noConfusion h
  · intro maxR rest hrest
    rw [hrc]
    obtain ⟨r, rs, rfl⟩ : ∃ r rs, rest = r :: rs := by
      cases rest with
      | nil => exact absurd rfl hrest
      | cons r rs => exact ⟨r, rs, rfl⟩
    simp [extractLoop]

theorem missing_required_field_is_schema_failure_witness :
    (getField noEmailTopFields "personalInfo" "personal_info" =
      some (.obj noEmailPIFields)) ∧
    (∀ s, getField noEmailPIFields "email" "email" ≠ some (.str s)) ∧
    ((∀ p, runChain (.ok (.obj noEmailTopFields)) ≠ .success p) ∧
     (∃ e, runChain (.ok (.obj noEmailTopFields)) = .parseFailure e) ∧
     (∀ e eT, (ChainOutcome.parseFailure e ≠ ChainOutcome.transportFailure eT)) ∧
     (∀ maxR (rest : List ChainOutcome), rest ≠ [] →
       extractLoop maxR (runChain (.ok (.obj noEmailTopFields)) :: rest) =
         ((extractLoop maxR rest).1, (extractLoop maxR rest).2 + 1))) :=
  ⟨rfl,
   fun s h => Option.noConfusion (show (none : Option Json) = some (.str s) from h),
   missing_required_field_is_schema_failure noEmailTopFields noEmailPIFields rfl
     (fun s h => Option.noConfusion (show (none : Option Json) = some (.str s) from h))⟩

/-! ## Sorting -/

theorem sortDescBy_sorted (key : α → String) (v : List α) :
    List.Sorted (fun a b => key b ≤ key a) (sortDescBy key v) := by
  haveI h1 : IsTotal α (fun a b => key b ≤ key a) := ⟨fun a b => le_total (key b) (key a)⟩
  haveI h2 : IsTrans α (fun a b => key b ≤ key a) :=
    ⟨fun a b c hab hbc => le_trans hbc hab⟩
  exact List.sorted_insertionSort _ v

theorem sort_by_date_sorted (hg : Bool) (startKey gradKey : α → String) (v : List α) :
    List.Sorted (fun a b => startKey b ≤ startKey a)
      (sort_by_date true hg startKey gradKey v) := by
  unfold sort_by_date
  by_cases h : v.isEmpty
  · rw [if_pos h, List.isEmpty_iff.mp h]
    exact List.sorted_nil
  · rw [if_neg h, if_pos rfl]
    exact sortDescBy_sorted startKey v

/-- C9: every profile constructed by validation has `work_experience` and
`education` sorted in descending lexicographic order of the entries'
start-date keys (a missing `Education.start_date` compares as `""`, so such
entries sort last); the education sort never consults `graduation_date`,
because `Education` always carries a `start_date` attribute, making the
`graduation_date` branch of `sort_by_date` unreachable (the result is
independent of the graduation key). -/
theorem profile_sorted_by_start_date (j : Json) (p : Profile)
    (h : parseProfile j = .ok p) :
    List.Sorted (fun a b => weStartKey b ≤ weStartKey a) p.work_experience ∧
    List.Sorted (fun a b => eduStartKey b ≤ eduStartKey a) p.education ∧
    (∀ (gradKey : Education → String) (v : List Education),
      sort_by_date true true eduStartKey gradKey v =
        sort_by_date true true eduStartKey eduGradKey v) := by
  cases j with
  | obj o =>
    simp only [parseProfile] at h
    obtain ⟨pi, hpi, h⟩ := bind_ok h
    obtain ⟨wes, hwes, h⟩ := bind_ok h
    obtain ⟨edus, hedus, h⟩ := bind_ok h
    obtain ⟨sk, hsk, h⟩ := bind_ok h
    obtain ⟨certs, hcerts, h⟩ := bind_ok h
    obtain ⟨projs, hprojs, h⟩ := bind_ok h
    have hp : { personal_info := pi,
                work_experience := sort_by_date true false weStartKey (fun _ => "") wes,
                education := sort_by_date true true eduStartKey eduGradKey edus,
                skills := sk, certifications := certs, projects := projs } = p :=
      Except.ok.inj h
    rw [← hp]
    refine ⟨sort_by_date_sorted false weStartKey _ wes,
            sort_by_date_sorted true eduStartKey eduGradKey edus, ?_⟩
    · intro gradKey v
      unfold sort_by_date
      rfl
  | null => exact absurd h (by simp [parseProfile])
  | bool b => exact absurd h (by simp [parseProfile])
  | num q => exact absurd h (by simp [parseProfile])
  | str s => exact absurd h (by simp [parseProfile])
  | arr xs => exact absurd h (by simp [parseProfile])

theorem profile_sorted_by_start_date_witness :
    (parseProfile minimalProfileJson = .ok { personal_info := basicPI }) ∧
    (List.Sorted (fun a b => weStartKey b ≤ weStartKey a)
        ({ personal_info := basicPI } : Profile).work_experience ∧
     List.Sorted (fun a b => eduStartKey b ≤ eduStartKey a)
        ({ personal_info := basicPI } : Profile).education ∧
     (∀ (gradKey : Education → String) (v : List Education),
       sort_by_date true true eduStartKey gradKey v =
         sort_by_date true true eduStartKey eduGradKey v)) :=
  ⟨rfl,
   profile_sorted_by_start_date minimalProfileJson { personal_info := basicPI } rfl⟩

/-! ## Monotonicity of the completeness score -/

theorem isEmpty_false_of_ne_nil {l : List α} (h : l ≠ []) : l.isEmpty = false := by
  cases l with
  | nil => exact absurd rfl h
  | cons a t => rfl

theorem forall₂_exists_mem {R : α → β → Prop} :
    ∀ {l₁ : List α} {l₂ : List β}, List.Forall₂ R l₁ l₂ →
    ∀ {a : α}, a ∈ l₁ → ∃ b ∈ l₂, R a b := by
  intro l₁ l₂ h
  induction h with
  | nil =>
    intro a ha
    cases ha
  | cons hr ht ih =>
    intro a ha
    rcases List.mem_cons.mp ha with rfl | ha2
    · exact ⟨_, List.mem_cons_self _ _, hr⟩
    · obtain ⟨b, hb, hrb⟩ := ih ha2
      exact ⟨b, List.mem_cons_of_mem _ hb, hrb⟩

theorem SublistRel.length_le {R : α → α → Prop} {l₁ l₂ : List α}
    (h : SublistRel R l₁ l₂) : l₁.length ≤ l₂.length := by
  obtain ⟨l, hf, hs⟩ := h
  rw [hf.length_eq]
  exact hs.length_le

theorem SublistRel.exists_rel {R : α → α → Prop} {l₁ l₂ : List α}
    (h : SublistRel R l₁ l₂) {a : α} (ha : a ∈ l₁) : ∃ b ∈ l₂, R a b := by
  obtain ⟨l, hf, hs⟩ := h
  obtain ⟨b, hb, hrb⟩ := forall₂_exists_mem hf ha
  exact ⟨b, hs.subset hb, hrb⟩

theorem SublistRel.ne_nil {R : α → α → Prop} {l₁ l₂ : List α}
    (h : SublistRel R l₁ l₂) (h1 : l₁ ≠ []) : l₂ ≠ [] := by
  intro h2
  apply h1
  have hlen := h.length_le
  rw [h2, List.length_nil, Nat.le_zero] at hlen
  exact List.eq_nil_of_length_eq_zero hlen

theorem SublistRel.nil (R : α → α → Prop) (l : List α) : SublistRel R [] l :=
  ⟨[], List.Forall₂.nil, List.nil_sublist l⟩

theorem OptionLE.refl (a : Option α) : OptionLE a a := fun _ h => h

theorem OptionLE.none_left (b : Option α) : OptionLE none b :=
  fun _ h => Option.noConfusion h

theorem OptionLE.truthyOptStr_mono {a b : Option String} (h : OptionLE a b)
    (ht : truthyOptStr a = true) : truthyOptStr b = true := by
  cases a with
  | none => exact absurd ht (by simp [truthyOptStr])
  | some s =>
    rw [h s rfl]
    exact ht

theorem OptionLE.truthyOptRat_mono {a b : Option ℚ} (h : OptionLE a b)
    (ht : truthyOptRat a = true) : truthyOptRat b = true := by
  cases a with
  | none => exact absurd ht (by simp [truthyOptRat])
  | some q =>
    rw [h q rfl]
    exact ht

theorem personalInfoPoints_mono {p q : PersonalInfo} (h : PersonalInfoLE p q) :
    personalInfoPoints p ≤ personalInfoPoints q := by
  unfold personalInfoPoints
  refine Nat.add_le_add (Nat.add_le_add (Nat.add_le_add (Nat.add_le_add ?_ ?_) ?_) ?_) ?_
  · rw [h.email]
  · exact pts_mono (fun ht => h.phone.truthyOptStr_mono ht) 5
  · exact pts_mono (fun ht => h.location.city.truthyOptStr_mono ht) 5
  · refine pts_mono (fun ht => ?_) 5
    have ht2 : truthyOptStr p.linkedin = true ∨ truthyOptStr p.github = true := by
      simpa using ht
    rcases ht2 with h2 | h2
    · simp [h.linkedin.truthyOptStr_mono h2]
    · simp [h.github.truthyOptStr_mono h2]
  · exact pts_mono (fun ht => h.summary.truthyOptStr_mono ht) 5

theorem workExperiencePoints_mono {l₁ l₂ : List WorkExperience}
    (h : SublistRel WorkExperienceLE l₁ l₂) :
    workExperiencePoints l₁ ≤ workExperiencePoints l₂ := by
  unfold workExperiencePoints
  by_cases h1 : l₁.isEmpty
  · rw [if_pos h1]
    exact Nat.zero_le _
  · have h1n : l₁ ≠ [] := fun hx => h1 (by rw [hx]; rfl)
    have h2 : ¬ l₂.isEmpty = true := by
      rw [isEmpty_false_of_ne_nil (h.ne_nil h1n)]
      exact Bool.false_ne_true
    rw [if_neg h1, if_neg h2]
    have hlen := h.length_le
    refine Nat.add_le_add (Nat.add_le_add (Nat.add_le_add le_rfl ?_) ?_) ?_
    · exact pts_mono
        (fun ht => decide_eq_true (le_trans (of_decide_eq_true ht) hlen)) 5
    · refine pts_mono (fun ht => ?_) 5
      obtain ⟨e, he, hde⟩ := List.any_eq_true.mp ht
      obtain ⟨f, hf, hr⟩ := h.exists_rel he
      refine List.any_eq_true.mpr ⟨f, hf, ?_⟩
      exact decide_eq_true
        (le_trans (of_decide_eq_true hde) hr.responsibilities.length_le)
    · refine pts_mono (fun ht => ?_) 5
      obtain ⟨e, he, hde⟩ := List.any_eq_true.mp ht
      obtain ⟨f, hf, hr⟩ := h.exists_rel he
      refine List.any_eq_true.mpr ⟨f, hf, ?_⟩
      rw [Bool.not_eq_true'] at hde ⊢
      have hene : e.achievements ≠ [] := by
        intro hx
        rw [hx] at hde
        exact Bool.noConfusion hde
      exact isEmpty_false_of_ne_nil (hr.achievements.ne_nil hene)

theorem educationPoints_mono {l₁ l₂ : List Education}
    (h : SublistRel EducationLE l₁ l₂) :
    educationPoints l₁ ≤ educationPoints l₂ := by
  unfold educationPoints
  by_cases h1 : l₁.isEmpty
  · rw [if_pos h1]
    exact Nat.zero_le _
  · have h1n : l₁ ≠ [] := fun hx => h1 (by rw [hx]; rfl)
    have h2 : ¬ l₂.isEmpty = true := by
      rw [isEmpty_false_of_ne_nil (h.ne_nil h1n)]
      exact Bool.false_ne_true
    rw [if_neg h1, if_neg h2]
    have hlen := h.length_le
    refine Nat.add_le_add (Nat.add_le_add le_rfl ?_) ?_
    · exact pts_mono
        (fun ht => decide_eq_true (le_trans (of_decide_eq_true ht) hlen)) 5
    · refine pts_mono (fun ht => ?_) 5
      obtain ⟨e, he, hde⟩ := List.any_eq_true.mp ht
      obtain ⟨f, hf, hr⟩ := h.exists_rel he
      exact List.any_eq_true.mpr ⟨f, hf, hr.gpa.truthyOptRat_mono hde⟩

theorem skillsPoints_mono {p q : Skills} (h : SkillsLE p q) :
    skillsPoints p ≤ skillsPoints q := by
  unfold skillsPoints
  by_cases h1 : p.technical.isEmpty
  · rw [if_pos h1]
    exact Nat.zero_le _
  · have h1n : p.technical ≠ [] := fun hx => h1 (by rw [hx]; rfl)
    have hlen := h.technical.length_le
    have h2 : ¬ q.technical.isEmpty = true := by
      rw [isEmpty_false_of_ne_nil (h.technical.ne_nil h1n)]
      exact Bool.false_ne_true
    rw [if_neg h1, if_neg h2]
    refine Nat.add_le_add (Nat.add_le_add le_rfl ?_) ?_
    · exact pts_mono
        (fun ht => decide_eq_true (le_trans (of_decide_eq_true ht) hlen)) 5
    · exact pts_mono
        (fun ht => decide_eq_true (le_trans (of_decide_eq_true ht) hlen)) 5

/-- C6: the completeness score is monotone: if `q` populates a superset of
the optional fields and list entries populated in `p`, with all shared
fields equal, then `_calculate_confidence p ≤ _calculate_confidence q`. -/
theorem confidence_monotone (p q : Profile) (h : ProfileLE p q) :
    calculate_confidence p ≤ calculate_confidence q := by
  have hpts : confidencePoints p ≤ confidencePoints q := by
    unfold confidencePoints
    exact Nat.add_le_add (Nat.add_le_add (Nat.add_le_add
      (personalInfoPoints_mono h.personal_info)
      (workExperiencePoints_mono h.work_experience))
      (educationPoints_mono h.education))
      (skillsPoints_mono h.skills)
  rw [calculate_confidence_eq_div, calculate_confidence_eq_div]
  gcongr

theorem confidence_monotone_witness :
    ProfileLE trivialProfile trivialProfilePhone ∧
    calculate_confidence trivialProfile ≤ calculate_confidence trivialProfilePhone := by
  have hle : ProfileLE trivialProfile trivialProfilePhone :=
    ⟨⟨rfl, rfl, rfl, OptionLE.none_left _,
      ⟨OptionLE.refl _, OptionLE.refl _, rfl, OptionLE.refl _, rfl, OptionLE.refl _⟩,
      OptionLE.refl _, OptionLE.refl _, OptionLE.refl _, OptionLE.refl _⟩,
     SublistRel.nil _ _, SublistRel.nil _ _,
     ⟨SublistRel.nil _ _, SublistRel.nil _ _, SublistRel.nil _ _⟩,
     OptionLE.refl _, OptionLE.refl _⟩
  exact ⟨hle, confidence_monotone trivialProfile trivialProfilePhone hle⟩

end JobSearch
